import Mathlib

/-!
Shallow embedding of the `sdapi` TypeScript client (src/sdapi.ts together
with its domain-type modules: fault, script-thread, breakpoint and
object-member).  Pure request-shaping and fault-translation logic is
translated to Lean functions; the HTTP transport is modelled by an
explicit outcome parameter (success response or failure error).
-/

/-- Model of an arbitrary JSON value, standing in for the `any`-typed
`error.response.data` body of an axios error. -/
inductive JsonValue where
  | null
  | bool (b : Bool)
  | str (s : String)
  | num (n : Int)
  | arr (items : List JsonValue)
  | obj (fields : List (String × JsonValue))

/-- Optional-chained property access `v?.key`: on a JSON object, the first
binding of `key`; on any non-object (as in JavaScript, where property access
on a primitive or through `?.` on null yields `undefined`), `none`. -/
def JsonValue.optGet : JsonValue → String → Option JsonValue
  | .obj fields, key => fields.lookup key
  | _, _ => none

/-- The eight fault classes of `fault.ts`
(`export class NotAuthorizedException extends Error {}`, etc.).
Each is constructed from a message only, so the class itself is a bare tag. -/
inductive FaultName where
  | NotAuthorizedException
  | ClientIdRequiredException
  | DebuggerDisabledException
  | InvalidScriptPathException
  | InvalidScriptFileException
  | BreakpointNotFoundException
  | ScriptThreadNotFoundException
  | InvalidFrameIndexException
deriving DecidableEq, Repr

/-- The `Faults` object of `fault.ts`: a mapping from discriminator string to
fault constructor, written as an association list with exactly the eight
shorthand keys of the source object literal. -/
def Faults : List (String × FaultName) :=
  [("NotAuthorizedException", .NotAuthorizedException),
   ("ClientIdRequiredException", .ClientIdRequiredException),
   ("DebuggerDisabledException", .DebuggerDisabledException),
   ("InvalidScriptPathException", .InvalidScriptPathException),
   ("InvalidScriptFileException", .InvalidScriptFileException),
   ("BreakpointNotFoundException", .BreakpointNotFoundException),
   ("ScriptThreadNotFoundException", .ScriptThreadNotFoundException),
   ("InvalidFrameIndexException", .InvalidFrameIndexException)]

/-- Model of an axios response `res` as delivered to `.then` handlers:
status, headers, and the decoded body `data`. -/
structure AxiosResponse (α : Type) where
  status : Nat
  headers : List (String × String)
  data : α
deriving DecidableEq, Repr

/-- The `response` component of a failed axios exchange: the HTTP status and
the raw (untyped) body. -/
structure ErrorResponse where
  status : Nat
  headers : List (String × String)
  data : JsonValue

/-- Model of an `AxiosError`: the transport error message, plus the server
response when one was received (`none` models a network-level failure where
`error.response` is `undefined`). -/
structure AxiosError where
  message : String
  response : Option ErrorResponse

/-- The value a failed operation rejects with, after the response
interceptor ran: either a typed fault (`new Fault(message)`, carrying the
raw `fault.message` value passed to the constructor) or the original
untranslated `AxiosError`. -/
inductive RejectedError where
  | fault (name : FaultName) (message : Option JsonValue)
  | transport (e : AxiosError)

/-- The discriminator `error.response?.data?.fault?.type` of `sdapi.ts`. -/
def faultTypeValue (e : AxiosError) : Option JsonValue :=
  ((e.response.map ErrorResponse.data).bind (JsonValue.optGet · "fault")).bind
    (JsonValue.optGet · "type")

/-- The message `error.response?.data?.fault?.message` of `sdapi.ts`. -/
def faultMessageValue (e : AxiosError) : Option JsonValue :=
  ((e.response.map ErrorResponse.data).bind (JsonValue.optGet · "fault")).bind
    (JsonValue.optGet · "message")

/-- The lookup `Faults[error.response?.data?.fault?.type as keyof (typeof Faults)]`:
only a string discriminator can hit one of the eight string keys. -/
def resolveFaultName (e : AxiosError) : Option FaultName :=
  match faultTypeValue e with
  | some (.str s) => Faults.lookup s
  | _ => none

/-- `axiosErrorToFault` of `sdapi.ts`: look the discriminator up in `Faults`;
`if (!Fault) return Promise.reject(error);` otherwise
`return Promise.reject(new Fault(error.response?.data?.fault?.message));`. -/
def axiosErrorToFault (e : AxiosError) : RejectedError :=
  match resolveFaultName e with
  | some fn => .fault fn (faultMessageValue e)
  | none => .transport e

/-- A failure body of shape `{_v: 2.0, fault: {type, message}}`, as the
remote service sends it (and as `faultResponse` builds it in the test file). -/
def faultBody (t m : String) : JsonValue :=
  .obj [("_v", .str "2.0"),
        ("fault", .obj [("type", .str t), ("message", .str m)])]

/-- An `AxiosError` holding a received response with the given status and body. -/
def mkAxiosError (emsg : String) (status : Nat) (data : JsonValue) : AxiosError :=
  { message := emsg, response := some { status := status, headers := [], data := data } }

/-- The `Config` interface of `sdapi.ts`. -/
structure Config where
  hostname : String
  username : String
  password : String
  clientId : String
deriving DecidableEq, Repr

/-- The `auth` option passed to `axios.create`. -/
structure BasicAuth where
  username : String
  password : String
deriving DecidableEq, Repr

/-- The connection configuration handed to `axios.create` in the
constructor: `baseURL`, `auth` and the default `headers`. -/
structure HttpClientConfig where
  baseURL : String
  auth : BasicAuth
  headers : List (String × String)
deriving DecidableEq, Repr

/-- The HTTP verbs used by the client. -/
inductive HttpMethod where
  | get
  | post
  | delete
deriving DecidableEq, Repr

/-- A query-parameter value: the client sends numbers (`start`, `count`) and
strings (`expr`, `object_path`). -/
inductive ParamValue where
  | num (n : Int)
  | str (s : String)
deriving DecidableEq, Repr

/-- The `Breakpoint` interface of `breakpoint.ts`. -/
structure Breakpoint where
  condition : Option String
  line_number : Int
  script_path : String
deriving DecidableEq, Repr

/-- The `Breakpoints` interface of `breakpoint.ts`. -/
structure Breakpoints where
  breakpoints : List Breakpoint
deriving DecidableEq, Repr

/-- The `DebuggerBreakpoint` interface of `breakpoint.ts`: a `Breakpoint`
plus the server-assigned `id`. -/
structure DebuggerBreakpoint extends Breakpoint where
  id : Int
deriving DecidableEq, Repr

/-- The `DebuggerBreakpoints` interface of `breakpoint.ts`. -/
structure DebuggerBreakpoints where
  breakpoints : List DebuggerBreakpoint
deriving DecidableEq, Repr

/-- The `Location` interface of `script-thread.ts`. -/
structure Location where
  function_name : Option String
  line_number : Int
  script_path : String
deriving DecidableEq, Repr

/-- The `StackFrame` interface of `script-thread.ts`. -/
structure StackFrame where
  index : Int
  location : Location
deriving DecidableEq, Repr

/-- The `ScriptThread` union of `script-thread.ts`: a thread is `running`,
or `halted` with a call stack (`call_stack` present exactly in the halted
variant). -/
inductive ScriptThread where
  | running (id : Int)
  | halted (id : Int) (call_stack : List StackFrame)
deriving DecidableEq, Repr

/-- The `ScriptThreads` interface of `script-thread.ts`. -/
structure ScriptThreads where
  script_threads : List ScriptThread
deriving DecidableEq, Repr

/-- Modelled from the spec: the `EvalResult` shape (`{expression, result}`,
a one-shot evaluation outcome); the module `eval-result.ts` that declares it
is not among the provided sources. -/
structure EvalResult where
  expression : String
  result : String
deriving DecidableEq, Repr

/-- The `ObjectMemberScope` enum of `object-member.ts`. -/
inductive ObjectMemberScope where
  | Local
  | Closure
  | Global
deriving DecidableEq, Repr

/-- The `ObjectMember` interface of `object-member.ts`. -/
structure ObjectMember where
  name : String
  parent : String
  type : String
  value : String
deriving DecidableEq, Repr

/-- The `ScopedObjectMember` interface of `object-member.ts`. -/
structure ScopedObjectMember extends ObjectMember where
  scope : ObjectMemberScope
deriving DecidableEq, Repr

/-- The `ObjectMembers<T>` interface of `object-member.ts`: a paginated
window of members. -/
structure ObjectMembers (T : Type) where
  object_members : List T
  start : Int
  count : Int
  total : Int
deriving DecidableEq, Repr

/-- The request a client method hands to the axios instance: verb, path
relative to the base URL, query params, and (for `createBreakpoints`) a body. -/
structure Request where
  method : HttpMethod
  path : String
  params : List (String × ParamValue)
  body : Option Breakpoints
deriving DecidableEq, Repr

/-- The `SDAPI` class: its only field is the private axios instance, of
which the model keeps the configuration. -/
structure SDAPI where
  http : HttpClientConfig
deriving DecidableEq, Repr

/-- The `SDAPI` constructor: `axios.create` with the debugger v2_0 `baseURL`
built from `config.hostname`, basic auth from `config.username` and
`config.password`, and header `x-dw-client-id: config.clientId`.
The registered response interceptor pair is modelled by
`interceptorFulfilled` and `axiosErrorToFault` below. -/
def SDAPI.new (config : Config) : SDAPI :=
  { http :=
    { baseURL := "https://" ++ config.hostname ++ "/s/-/dw/debugger/v2_0",
      auth := { username := config.username, password := config.password },
      headers := [("x-dw-client-id", config.clientId)] } }

/-- The fulfilled handler `res => res` registered by
`this.http.interceptors.response.use(res => res, axiosErrorToFault)`. -/
def interceptorFulfilled {α : Type} (res : AxiosResponse α) : AxiosResponse α :=
  res

/-- The outcome of one HTTP exchange, as the transport reports it to the
interceptor layer: a response with a successful status, or an `AxiosError`. -/
inductive HttpOutcome (α : Type) where
  | success (res : AxiosResponse α)
  | failure (e : AxiosError)

/-- One exchange as seen after the response interceptors: fulfilled
responses go through `interceptorFulfilled`, rejections through
`axiosErrorToFault`. -/
def sendWithInterceptor {α : Type} (out : HttpOutcome α) :
    Except RejectedError (AxiosResponse α) :=
  match out with
  | .success res => .ok (interceptorFulfilled res)
  | .failure e => .error (axiosErrorToFault e)

/-- `createClient()`: `this.http.post(/client)`. -/
def SDAPI.createClient (s : SDAPI) : Request × SDAPI :=
  ({ method := .post, path := "/client", params := [], body := none }, s)

/-- `deleteClient()`: `this.http.delete(/client)`. -/
def SDAPI.deleteClient (s : SDAPI) : Request × SDAPI :=
  ({ method := .delete, path := "/client", params := [], body := none }, s)

/-- `getBreakpoints()`: `this.http.get(/breakpoints)`. -/
def SDAPI.getBreakpoints (s : SDAPI) : Request × SDAPI :=
  ({ method := .get, path := "/breakpoints", params := [], body := none }, s)

/-- `createBreakpoints(breakpoints)`: `this.http.post(/breakpoints, breakpoints)`. -/
def SDAPI.createBreakpoints (s : SDAPI) (breakpoints : Breakpoints) : Request × SDAPI :=
  ({ method := .post, path := "/breakpoints", params := [], body := some breakpoints }, s)

/-- `removeBreakpoints()`: `this.http.delete(/breakpoints)`. -/
def SDAPI.removeBreakpoints (s : SDAPI) : Request × SDAPI :=
  ({ method := .delete, path := "/breakpoints", params := [], body := none }, s)

/-- `getBreakpoint(id)`: GET on the breakpoint id path. -/
def SDAPI.getBreakpoint (s : SDAPI) (id : Int) : Request × SDAPI :=
  ({ method := .get, path := "/breakpoints/" ++ toString id, params := [], body := none }, s)

/-- `removeBreakpoint(id)`: DELETE on the breakpoint id path. -/
def SDAPI.removeBreakpoint (s : SDAPI) (id : Int) : Request × SDAPI :=
  ({ method := .delete, path := "/breakpoints/" ++ toString id, params := [], body := none }, s)

/-- `getScriptThreads()`: `this.http.get(/threads)`. -/
def SDAPI.getScriptThreads (s : SDAPI) : Request × SDAPI :=
  ({ method := .get, path := "/threads", params := [], body := none }, s)

/-- `resetScriptThreads()`: `this.http.post(/threads/reset)`. -/
def SDAPI.resetScriptThreads (s : SDAPI) : Request × SDAPI :=
  ({ method := .post, path := "/threads/reset", params := [], body := none }, s)

/-- `getScriptThread(id)`: GET on the thread id path. -/
def SDAPI.getScriptThread (s : SDAPI) (id : Int) : Request × SDAPI :=
  ({ method := .get, path := "/threads/" ++ toString id, params := [], body := none }, s)

/-- `evaluateExpression(threadId, frameIndex, expr)`: GET on the frame eval
path with `{ params: { expr } }`. -/
def SDAPI.evaluateExpression (s : SDAPI) (threadId frameIndex : Int) (expr : String) :
    Request × SDAPI :=
  ({ method := .get,
     path := "/threads/" ++ toString threadId ++ "/frames/" ++ toString frameIndex ++ "/eval",
     params := [("expr", .str expr)],
     body := none }, s)

/-- `getObjectMembers(threadId, frameIndex, objectPath?, start = 0, count = 200)`:
`objectPath` is an optional argument, and `start`/`count` carry TypeScript
default values, applied when the caller passes no value (here `none`).  The
params object starts as `{ start, count }`, and `object_path` is added by
`if (objectPath) { params.object_path = objectPath; }` — a truthiness test,
so `undefined` and the empty string both leave the key out. -/
def SDAPI.getObjectMembers (s : SDAPI) (threadId frameIndex : Int)
    (objectPath : Option String) (startArg countArg : Option Int) : Request × SDAPI :=
  let start := startArg.getD 0
  let count := countArg.getD 200
  let params := [("start", ParamValue.num start), ("count", ParamValue.num count)]
  let params :=
    match objectPath with
    | some p => if p ≠ "" then params ++ [("object_path", ParamValue.str p)] else params
    | none => params
  ({ method := .get,
     path := "/threads/" ++ toString threadId ++ "/frames/" ++ toString frameIndex ++ "/members",
     params := params,
     body := none }, s)

/-- `getVariables(threadId, frameIndex, start = 0, count = 200)`: GET on the
frame variables path with `{ params: { start, count } }` and the same
TypeScript defaults as `getObjectMembers`. -/
def SDAPI.getVariables (s : SDAPI) (threadId frameIndex : Int)
    (startArg countArg : Option Int) : Request × SDAPI :=
  let start := startArg.getD 0
  let count := countArg.getD 200
  ({ method := .get,
     path := "/threads/" ++ toString threadId ++ "/frames/" ++ toString frameIndex ++ "/variables",
     params := [("start", ParamValue.num start), ("count", ParamValue.num count)],
     body := none }, s)

/-- The action argument of the private `step` method: the string-literal
union `into | out | over | resume | stop`. -/
inductive StepAction where
  | into
  | out
  | over
  | resume
  | stop
deriving DecidableEq, Repr

/-- The string each `StepAction` literal denotes. -/
def StepAction.text : StepAction → String
  | .into => "into"
  | .out => "out"
  | .over => "over"
  | .resume => "resume"
  | .stop => "stop"

/-- The private `step(threadId, action)`: POST on the thread action path. -/
def SDAPI.step (s : SDAPI) (threadId : Int) (action : StepAction) : Request × SDAPI :=
  ({ method := .post,
     path := "/threads/" ++ toString threadId ++ "/" ++ action.text,
     params := [],
     body := none }, s)

/-- `stepInto(threadId)`: `this.step(threadId, into)`. -/
def SDAPI.stepInto (s : SDAPI) (threadId : Int) : Request × SDAPI :=
  s.step threadId .into

/-- `stepOut(threadId)`: `this.step(threadId, out)`. -/
def SDAPI.stepOut (s : SDAPI) (threadId : Int) : Request × SDAPI :=
  s.step threadId .out

/-- `stepOver(threadId)`: `this.step(threadId, over)`. -/
def SDAPI.stepOver (s : SDAPI) (threadId : Int) : Request × SDAPI :=
  s.step threadId .over

/-- `stepResume(threadId)`: `this.step(threadId, resume)`. -/
def SDAPI.stepResume (s : SDAPI) (threadId : Int) : Request × SDAPI :=
  s.step threadId .resume

/-- `stepStop(threadId)`: `this.step(threadId, stop)`. -/
def SDAPI.stepStop (s : SDAPI) (threadId : Int) : Request × SDAPI :=
  s.step threadId .stop

/-- `createClient` response handling: the promise of the raw axios response
(no `.then` unwrapping in the source). -/
def createClientResolve {α : Type} (out : HttpOutcome α) :
    Except RejectedError (AxiosResponse α) :=
  sendWithInterceptor out

/-- `deleteClient` response handling: the raw axios response. -/
def deleteClientResolve {α : Type} (out : HttpOutcome α) :
    Except RejectedError (AxiosResponse α) :=
  sendWithInterceptor out

/-- `getBreakpoints` response handling: `.then(res => res.data)`. -/
def getBreakpointsResolve (out : HttpOutcome DebuggerBreakpoints) :
    Except RejectedError DebuggerBreakpoints :=
  (sendWithInterceptor out).map AxiosResponse.data

/-- `createBreakpoints` response handling: `.then(res => res.data)`. -/
def createBreakpointsResolve (out : HttpOutcome DebuggerBreakpoints) :
    Except RejectedError DebuggerBreakpoints :=
  (sendWithInterceptor out).map AxiosResponse.data

/-- `removeBreakpoints` response handling: the raw axios response. -/
def removeBreakpointsResolve {α : Type} (out : HttpOutcome α) :
    Except RejectedError (AxiosResponse α) :=
  sendWithInterceptor out

/-- `getBreakpoint` response handling: `.then(res => res.data)`. -/
def getBreakpointResolve (out : HttpOutcome DebuggerBreakpoint) :
    Except RejectedError DebuggerBreakpoint :=
  (sendWithInterceptor out).map AxiosResponse.data

/-- `removeBreakpoint` response handling: the raw axios response. -/
def removeBreakpointResolve {α : Type} (out : HttpOutcome α) :
    Except RejectedError (AxiosResponse α) :=
  sendWithInterceptor out

/-- `getScriptThreads` response handling: `.then(res => res.data)`. -/
def getScriptThreadsResolve (out : HttpOutcome ScriptThreads) :
    Except RejectedError ScriptThreads :=
  (sendWithInterceptor out).map AxiosResponse.data

/-- `resetScriptThreads` response handling: the raw axios response. -/
def resetScriptThreadsResolve {α : Type} (out : HttpOutcome α) :
    Except RejectedError (AxiosResponse α) :=
  sendWithInterceptor out

/-- `getScriptThread` response handling: `.then(res => res.data)`. -/
def getScriptThreadResolve (out : HttpOutcome ScriptThread) :
    Except RejectedError ScriptThread :=
  (sendWithInterceptor out).map AxiosResponse.data

/-- `evaluateExpression` response handling: `.then(res => res.data)`. -/
def evaluateExpressionResolve (out : HttpOutcome EvalResult) :
    Except RejectedError EvalResult :=
  (sendWithInterceptor out).map AxiosResponse.data

/-- `getObjectMembers` response handling: `.then(res => res.data)`. -/
def getObjectMembersResolve (out : HttpOutcome (ObjectMembers ObjectMember)) :
    Except RejectedError (ObjectMembers ObjectMember) :=
  (sendWithInterceptor out).map AxiosResponse.data

/-- `getVariables` response handling: `.then(res => res.data)`. -/
def getVariablesResolve (out : HttpOutcome (ObjectMembers ScopedObjectMember)) :
    Except RejectedError (ObjectMembers ScopedObjectMember) :=
  (sendWithInterceptor out).map AxiosResponse.data

/-- Response handling shared by the five step operations through the private
`step`: `.then(res => res.data)` on a `ScriptThread` response. -/
def stepResolve (out : HttpOutcome ScriptThread) :
    Except RejectedError ScriptThread :=
  (sendWithInterceptor out).map AxiosResponse.data

/-- The `mockConfig` of the test suite, used as a concrete configuration. -/
def mockConfig : Config :=
  { hostname := "localhost", username := "username", password := "password", clientId := "TestSDAPI" }

/-- Claim C1: for every discriminator string that is a key of the `Faults`
mapping, a failed exchange whose body is a fault envelope with that
discriminator is translated to the matching typed condition constructed from
exactly that message, for every HTTP status; and each of the eight
documented discriminators is indeed a key of the mapping. -/
theorem fault_taxonomy_translation (status : Nat) (emsg t m : String) (fn : FaultName)
    (h : Faults.lookup t = some fn) :
    axiosErrorToFault (mkAxiosError emsg status (faultBody t m)) =
      .fault fn (some (.str m)) ∧
    Faults.lookup "NotAuthorizedException" = some .NotAuthorizedException ∧
    Faults.lookup "ClientIdRequiredException" = some .ClientIdRequiredException ∧
    Faults.lookup "DebuggerDisabledException" = some .DebuggerDisabledException ∧
    Faults.lookup "InvalidScriptPathException" = some .InvalidScriptPathException ∧
    Faults.lookup "InvalidScriptFileException" = some .InvalidScriptFileException ∧
    Faults.lookup "BreakpointNotFoundException" = some .BreakpointNotFoundException ∧
    Faults.lookup "ScriptThreadNotFoundException" = some .ScriptThreadNotFoundException ∧
    Faults.lookup "InvalidFrameIndexException" = some .InvalidFrameIndexException := by
  refine ⟨?_, by decide, by decide, by decide, by decide, by decide, by decide, by decide,
    by decide⟩
  have h1 : resolveFaultName (mkAxiosError emsg status (faultBody t m)) = Faults.lookup t := rfl
  unfold axiosErrorToFault
  rw [h1, h]
  rfl

/-- Witness for C1: the NotAuthorizedException scenario of the test suite, a
401 whose fault envelope carries that discriminator. -/
theorem fault_taxonomy_translation_witness :
    Faults.lookup "NotAuthorizedException" = some .NotAuthorizedException ∧
    axiosErrorToFault (mkAxiosError "Request failed with status code 401" 401
        (faultBody "NotAuthorizedException" "You are not authorized to use the Script Debugger.")) =
      .fault .NotAuthorizedException
        (some (.str "You are not authorized to use the Script Debugger.")) :=
  ⟨by decide,
   (fault_taxonomy_translation 401 "Request failed with status code 401"
     "NotAuthorizedException" "You are not authorized to use the Script Debugger."
     .NotAuthorizedException (by decide)).1⟩

/-- Claim C2: a failed exchange whose body resolves to no known fault
discriminator (absent, non-string, or not a key of the mapping) is rejected
with the original transport error itself, status and body untouched. -/
theorem unresolved_fault_passthrough (e : AxiosError) (h : resolveFaultName e = none) :
    axiosErrorToFault e = .transport e := by
  unfold axiosErrorToFault
  rw [h]

/-- Witness for C2: the interceptor-fallback scenario of the test suite, a
500 whose body is the plain string Internal Server Error. -/
theorem unresolved_fault_passthrough_witness :
    resolveFaultName (mkAxiosError "Request failed with status code 500" 500
      (.str "Internal Server Error")) = none ∧
    axiosErrorToFault (mkAxiosError "Request failed with status code 500" 500
        (.str "Internal Server Error")) =
      .transport (mkAxiosError "Request failed with status code 500" 500
        (.str "Internal Server Error")) :=
  ⟨rfl, unresolved_fault_passthrough _ rfl⟩

/-- Claim C3: with no `objectPath`, the `getObjectMembers` request carries
exactly the `start` and `count` query parameters (no `object_path` key); with
`objectPath = basket.productLineItems`, `start = 10`, `count = 100` it
carries exactly those three parameters and no others. -/
theorem getObjectMembers_query_params (s : SDAPI) (threadId frameIndex : Int)
    (startArg countArg : Option Int) :
    (s.getObjectMembers threadId frameIndex none startArg countArg).1.params =
      [("start", .num (startArg.getD 0)), ("count", .num (countArg.getD 200))] ∧
    (s.getObjectMembers threadId frameIndex (some "basket.productLineItems")
        (some 10) (some 100)).1.params =
      [("start", .num 10), ("count", .num 100),
       ("object_path", .str "basket.productLineItems")] :=
  ⟨rfl, rfl⟩

/-- Claim C4: called without explicit `start` and `count`, `getObjectMembers`
(for any `objectPath` argument) and `getVariables` build requests whose
`start` parameter is 0 and whose `count` parameter is 200. -/
theorem pagination_defaults (s : SDAPI) (threadId frameIndex : Int)
    (objectPath : Option String) :
    (s.getObjectMembers threadId frameIndex objectPath none none).1.params.lookup "start" =
      some (.num 0) ∧
    (s.getObjectMembers threadId frameIndex objectPath none none).1.params.lookup "count" =
      some (.num 200) ∧
    (s.getVariables threadId frameIndex none none).1.params =
      [("start", .num 0), ("count", .num 200)] := by
  refine ⟨?_, ?_, rfl⟩ <;>
  · cases objectPath with
    | none => rfl
    | some p =>
      by_cases hp : p = ""
      · subst hp; rfl
      · simp only [SDAPI.getObjectMembers, hp, ne_eq, not_false_eq_true, if_true]
        rfl

/-- Claim C9: an explicitly supplied empty-string `objectPath` produces
exactly the `start` and `count` parameters, the `object_path` key omitted
just as when `objectPath` is not supplied: the inclusion test is truthiness,
not presence. -/
theorem getObjectMembers_empty_objectPath (s : SDAPI) (threadId frameIndex : Int)
    (startArg countArg : Option Int) :
    (s.getObjectMembers threadId frameIndex (some "") startArg countArg).1.params =
      [("start", .num (startArg.getD 0)), ("count", .num (countArg.getD 200))] ∧
    (s.getObjectMembers threadId frameIndex (some "") startArg countArg).1 =
      (s.getObjectMembers threadId frameIndex none startArg countArg).1 :=
  ⟨rfl, rfl⟩

/-- Claim C5: each of the five step operations issues a POST to the thread
action path (`/threads/{threadId}/{action}` for its action string), and its
response handling resolves a successful exchange to the response body, the
thread payload, unchanged and unwrapped. -/
theorem step_operations (s : SDAPI) (threadId : Int) :
    (s.stepInto threadId).1.method = .post ∧
    (s.stepInto threadId).1.path = "/threads/" ++ toString threadId ++ "/" ++ "into" ∧
    (s.stepOut threadId).1.method = .post ∧
    (s.stepOut threadId).1.path = "/threads/" ++ toString threadId ++ "/" ++ "out" ∧
    (s.stepOver threadId).1.method = .post ∧
    (s.stepOver threadId).1.path = "/threads/" ++ toString threadId ++ "/" ++ "over" ∧
    (s.stepResume threadId).1.method = .post ∧
    (s.stepResume threadId).1.path = "/threads/" ++ toString threadId ++ "/" ++ "resume" ∧
    (s.stepStop threadId).1.method = .post ∧
    (s.stepStop threadId).1.path = "/threads/" ++ toString threadId ++ "/" ++ "stop" ∧
    ∀ r : AxiosResponse ScriptThread, stepResolve (.success r) = .ok r.data :=
  ⟨rfl, rfl, rfl, rfl, rfl, rfl, rfl, rfl, rfl, rfl, fun _ => rfl⟩

/-- Claim C6: the constructor configures the client with base address
`https://{hostname}/s/.../dw/debugger/v2_0` (the literal debugger base
path), basic-auth credentials `username`/`password`, and the
`x-dw-client-id` header set to `clientId`; and no operation changes the
client afterwards — every method returns its state component unchanged. -/
theorem constructor_config_immutable (c : Config) :
    (SDAPI.new c).http =
      { baseURL := "https://" ++ c.hostname ++ "/s/-/dw/debugger/v2_0",
        auth := { username := c.username, password := c.password },
        headers := [("x-dw-client-id", c.clientId)] } ∧
    (∀ s : SDAPI, s.createClient.2 = s) ∧
    (∀ s : SDAPI, s.deleteClient.2 = s) ∧
    (∀ s : SDAPI, s.getBreakpoints.2 = s) ∧
    (∀ (s : SDAPI) (bps : Breakpoints), (s.createBreakpoints bps).2 = s) ∧
    (∀ s : SDAPI, s.removeBreakpoints.2 = s) ∧
    (∀ (s : SDAPI) (id : Int), (s.getBreakpoint id).2 = s) ∧
    (∀ (s : SDAPI) (id : Int), (s.removeBreakpoint id).2 = s) ∧
    (∀ s : SDAPI, s.getScriptThreads.2 = s) ∧
    (∀ s : SDAPI, s.resetScriptThreads.2 = s) ∧
    (∀ (s : SDAPI) (id : Int), (s.getScriptThread id).2 = s) ∧
    (∀ (s : SDAPI) (threadId frameIndex : Int) (expr : String),
      (s.evaluateExpression threadId frameIndex expr).2 = s) ∧
    (∀ (s : SDAPI) (threadId frameIndex : Int) (objectPath : Option String)
      (startArg countArg : Option Int),
      (s.getObjectMembers threadId frameIndex objectPath startArg countArg).2 = s) ∧
    (∀ (s : SDAPI) (threadId frameIndex : Int) (startArg countArg : Option Int),
      (s.getVariables threadId frameIndex startArg countArg).2 = s) ∧
    (∀ (s : SDAPI) (threadId : Int) (action : StepAction), (s.step threadId action).2 = s) ∧
    (∀ (s : SDAPI) (threadId : Int), (s.stepInto threadId).2 = s) ∧
    (∀ (s : SDAPI) (threadId : Int), (s.stepOut threadId).2 = s) ∧
    (∀ (s : SDAPI) (threadId : Int), (s.stepOver threadId).2 = s) ∧
    (∀ (s : SDAPI) (threadId : Int), (s.stepResume threadId).2 = s) ∧
    (∀ (s : SDAPI) (threadId : Int), (s.stepStop threadId).2 = s) := by
  refine ⟨rfl, ?_, ?_, ?_, ?_, ?_, ?_, ?_, ?_, ?_, ?_, ?_, ?_, ?_, ?_, ?_, ?_, ?_, ?_, ?_⟩ <;>
    intros <;> rfl

/-- Claim C7: the fulfilled interceptor handler is the identity on every
successful response, and every payload-returning operation resolves a
successful exchange to exactly the response body `data`, stripped of the
transport envelope. -/
theorem success_passthrough_unwrap :
    (∀ (α : Type) (r : AxiosResponse α), interceptorFulfilled r = r) ∧
    (∀ r : AxiosResponse DebuggerBreakpoints, getBreakpointsResolve (.success r) = .ok r.data) ∧
    (∀ r : AxiosResponse DebuggerBreakpoints,
      createBreakpointsResolve (.success r) = .ok r.data) ∧
    (∀ r : AxiosResponse DebuggerBreakpoint, getBreakpointResolve (.success r) = .ok r.data) ∧
    (∀ r : AxiosResponse ScriptThreads, getScriptThreadsResolve (.success r) = .ok r.data) ∧
    (∀ r : AxiosResponse ScriptThread, getScriptThreadResolve (.success r) = .ok r.data) ∧
    (∀ r : AxiosResponse EvalResult, evaluateExpressionResolve (.success r) = .ok r.data) ∧
    (∀ r : AxiosResponse (ObjectMembers ObjectMember),
      getObjectMembersResolve (.success r) = .ok r.data) ∧
    (∀ r : AxiosResponse (ObjectMembers ScopedObjectMember),
      getVariablesResolve (.success r) = .ok r.data) ∧
    (∀ r : AxiosResponse ScriptThread, stepResolve (.success r) = .ok r.data) :=
  ⟨fun _ _ => rfl, fun _ => rfl, fun _ => rfl, fun _ => rfl, fun _ => rfl, fun _ => rfl,
   fun _ => rfl, fun _ => rfl, fun _ => rfl, fun _ => rfl⟩

/-- Claim C10: the five operations with no domain payload resolve a
successful exchange to the raw transport response itself — the whole
`AxiosResponse`, status and headers included — not to an unwrapped body. -/
theorem void_operations_raw_response :
    (∀ (α : Type) (r : AxiosResponse α), createClientResolve (.success r) = .ok r) ∧
    (∀ (α : Type) (r : AxiosResponse α), deleteClientResolve (.success r) = .ok r) ∧
    (∀ (α : Type) (r : AxiosResponse α), removeBreakpointsResolve (.success r) = .ok r) ∧
    (∀ (α : Type) (r : AxiosResponse α), removeBreakpointResolve (.success r) = .ok r) ∧
    (∀ (α : Type) (r : AxiosResponse α), resetScriptThreadsResolve (.success r) = .ok r) :=
  ⟨fun _ _ => rfl, fun _ _ => rfl, fun _ _ => rfl, fun _ _ => rfl, fun _ _ => rfl⟩

/-- Counterexample to claim C8 as stated: `objectPath` supplied as the
explicit empty string is not absent, yet the `object_path` query key is
omitted from the built request — the builder does not treat an explicit
empty string differently from an absent argument. -/
theorem objectPath_empty_not_distinguished :
    (some "" : Option String) ≠ none ∧
    ((SDAPI.new mockConfig).getObjectMembers 1 0
        (some "") (some 0) (some 200)).1.params.lookup "object_path" = none := by
  exact ⟨by decide, rfl⟩

/-- Claim C8 as amended: the request-builder for `getObjectMembers` tests
`objectPath` for truthiness, so the `object_path` query key is omitted
exactly when `objectPath` is absent or the empty string, and an explicitly
supplied nonempty `objectPath` is appended as the `object_path` parameter
after `start` and `count`. -/
theorem objectPath_truthiness (s : SDAPI) (threadId frameIndex : Int)
    (objectPath : Option String) (startArg countArg : Option Int) :
    ((s.getObjectMembers threadId frameIndex objectPath startArg countArg).1.params.lookup
        "object_path" = none ↔ (objectPath = none ∨ objectPath = some "")) ∧
    (∀ p : String, p ≠ "" →
      (s.getObjectMembers threadId frameIndex (some p) startArg countArg).1.params =
        [("start", .num (startArg.getD 0)), ("count", .num (countArg.getD 200)),
         ("object_path", .str p)]) := by
  constructor
  · cases objectPath with
    | none => simp [SDAPI.getObjectMembers]
    | some p =>
      by_cases hp : p = ""
      · subst hp
        simp [SDAPI.getObjectMembers]
      · simp only [SDAPI.getObjectMembers, hp, ne_eq, not_false_eq_true, if_true]
        simp [List.lookup, hp]
  · intro p hp
    simp only [SDAPI.getObjectMembers, hp, ne_eq, not_false_eq_true, if_true]
    rfl

/-- Witness for the amended C8: a nonempty `objectPath` is appended as the
`object_path` parameter. -/
theorem objectPath_truthiness_witness :
    ("basket.productLineItems" : String) ≠ "" ∧
    ((SDAPI.new mockConfig).getObjectMembers 1 0
        (some "basket.productLineItems") (some 10) (some 100)).1.params =
      [("start", .num 10), ("count", .num 100),
       ("object_path", .str "basket.productLineItems")] :=
  ⟨by decide,
   (objectPath_truthiness (SDAPI.new mockConfig) 1 0
       (some "basket.productLineItems") (some 10) (some 100)).2
     "basket.productLineItems" (by decide)⟩
